import Mathlib

/-!
# Verification of the Amazon-sales ETL pipeline

Shallow embedding of `src/etl_pipeline.py` and `src/lambda_function.py`.
Rows of the cleaned CSV are modelled by the structure `Row`; the numeric
columns `Amount` and `Qty` carry `Option Rat`, where `none` stands for the
`NaN` produced by `pd.to_numeric(..., errors=coerce)` on a missing or
unparseable cell (the coercion itself is therefore the identity in this
model).  The string-typed key columns of the cleaned CSV (`Order ID`,
`Status`, `ship-state`, `Category`, `Size`, `MonthName`) are modelled as
total strings, and `Year`/`Month` as integers, following the data model of
the specification.  Dates are kept opaque as strings, since no analytics
step reads them.  Python floats are idealised as rationals.
-/

/-- One row of the sales table, after CSV parsing.  `amount` and `qty` are
the values produced by numeric coercion (`none` = NaN). -/
structure Row where
  orderId : String
  date : String
  status : String
  amount : Option Rat
  qty : Option Rat
  shipState : String
  category : String
  size : String
  year : Int
  month : Int
  monthName : String
deriving DecidableEq

/-- Sum of a pandas numeric column: `Series.sum()` skips NaN entries and
returns `0.0` on an empty or all-NaN column. -/
def pandasSum (l : List (Option Rat)) : Rat :=
  (l.filterMap id).sum

/-- Mean of a pandas numeric column: `Series.mean()` averages the non-NaN
entries and returns NaN (`none`) when there are none. -/
def pandasMean (l : List (Option Rat)) : Option Rat :=
  let v := l.filterMap id
  if v.length = 0 then none else some (v.sum / v.length)

/-- Python `int(x)` on a float: truncation toward zero. -/
def pyInt (q : Rat) : Int :=
  if 0 ≤ q then q.floor else q.ceil

/-- Numpy/pandas `.round(2)`: round to two decimal places, ties to even. -/
def round2 (q : Rat) : Rat :=
  let y : Rat := q * 100
  let f : Int := y.floor
  let r : Rat := y - f
  let n : Int :=
    if r < 1 / 2 then f
    else if 1 / 2 < r then f + 1
    else if f % 2 = 0 then f else f + 1
  (n : Rat) / 100

/-- The active-order filter shared by `etl_pipeline.transform` (line 40)
and `lambda_handler` (line 42): keep rows whose `Status` is not exactly
the string `Cancelled`. -/
def activeFilter (df : List Row) : List Row :=
  df.filter (fun r => r.status ≠ "Cancelled")

/-- `fillna(0)` applied to the `Amount` and `Qty` columns of one row
(`etl_pipeline.transform`, lines 43-44). -/
def fillna0 (r : Row) : Row :=
  { r with amount := some (r.amount.getD 0), qty := some (r.qty.getD 0) }

/-- The active partition produced by `SalesETLPipeline.transform`:
filter out cancelled orders, then fill NaN amounts and quantities
with zero. -/
def etl_df_active (df : List Row) : List Row :=
  (activeFilter df).map fillna0

/-- The active partition used by `lambda_handler`: cancelled orders are
filtered out but NaN values are never filled. -/
def lambda_df_active (df : List Row) : List Row :=
  activeFilter df

/-- One output row of a grouped aggregation (`groupby(key).agg` with
sum of `Amount`, sum of `Qty` and count of `Order ID`):
summed revenue, summed quantity, and the record count of the group. -/
structure AggRow (κ : Type) where
  key : κ
  revenue : Rat
  quantity : Rat
  order_count : Nat
deriving DecidableEq

/-- Grouped aggregation over the rows: one `AggRow` per distinct key
value, carrying the group sums of `Amount` and `Qty` (NaN-skipping, as
pandas `sum` does) and the count of `Order ID` entries of the group. -/
def aggregateBy {κ : Type} [DecidableEq κ] (key : Row → κ) (rows : List Row) :
    List (AggRow κ) :=
  ((rows.map key).dedup).map (fun k =>
    let grp := rows.filter (fun r => key r = k)
    { key := k
      revenue := pandasSum (grp.map (fun r => r.amount))
      quantity := pandasSum (grp.map (fun r => r.qty))
      order_count := grp.length })

/-- Revenue-descending comparison used by `sort_values` with
`ascending=False` on the `revenue` column. -/
def revDesc {κ : Type} (a b : AggRow κ) : Prop :=
  b.revenue ≤ a.revenue

instance {κ : Type} : DecidableRel (@revDesc κ) :=
  fun a b => inferInstanceAs (Decidable (b.revenue ≤ a.revenue))

instance {κ : Type} : IsTotal (AggRow κ) revDesc :=
  ⟨fun a b => le_total b.revenue a.revenue⟩

instance {κ : Type} : IsTrans (AggRow κ) revDesc :=
  ⟨fun _ _ _ hab hbc => le_trans hbc hab⟩

/-- Key of the compound monthly dimension: `(Year, Month, MonthName)`. -/
abbrev MonthKey : Type := Int × Int × String

/-- Ascending comparison on `(year, month)` used by
`sort_values` on the columns `year` then `month`. -/
def monthLe (a b : AggRow MonthKey) : Prop :=
  a.key.1 < b.key.1 ∨ (a.key.1 = b.key.1 ∧ a.key.2.1 ≤ b.key.2.1)

instance : DecidableRel monthLe :=
  fun a b => inferInstanceAs
    (Decidable (a.key.1 < b.key.1 ∨ (a.key.1 = b.key.1 ∧ a.key.2.1 ≤ b.key.2.1)))

instance : IsTotal (AggRow MonthKey) monthLe := by
  constructor
  intro a b
  rcases lt_trichotomy a.key.1 b.key.1 with h | h | h
  · exact Or.inl (Or.inl h)
  · rcases le_total a.key.2.1 b.key.2.1 with h2 | h2
    · exact Or.inl (Or.inr ⟨h, h2⟩)
    · exact Or.inr (Or.inr ⟨h.symm, h2⟩)
  · exact Or.inr (Or.inl h)

instance : IsTrans (AggRow MonthKey) monthLe := by
  constructor
  intro a b c hab hbc
  rcases hab with h1 | ⟨h1, h1m⟩ <;> rcases hbc with h2 | ⟨h2, h2m⟩
  · exact Or.inl (lt_trans h1 h2)
  · exact Or.inl (h2 ▸ h1)
  · exact Or.inl (h1 ▸ h2)
  · exact Or.inr ⟨h1.trans h2, le_trans h1m h2m⟩

/-- `SalesETLPipeline.aggregate_by_state`: group the active partition by
`ship-state`, then sort by revenue descending. -/
def aggregate_by_state (act : List Row) : List (AggRow String) :=
  List.insertionSort revDesc (aggregateBy (fun r => r.shipState) act)

/-- `SalesETLPipeline.aggregate_by_category`: group by `Category`, then
sort by revenue descending. -/
def aggregate_by_category (act : List Row) : List (AggRow String) :=
  List.insertionSort revDesc (aggregateBy (fun r => r.category) act)

/-- `SalesETLPipeline.aggregate_by_size`: group by `Size`, then sort by
revenue descending. -/
def aggregate_by_size (act : List Row) : List (AggRow String) :=
  List.insertionSort revDesc (aggregateBy (fun r => r.size) act)

/-- `SalesETLPipeline.aggregate_by_month`: group by
`(Year, Month, MonthName)`, then sort ascending by `year`, `month`. -/
def aggregate_by_month (act : List Row) : List (AggRow MonthKey) :=
  List.insertionSort monthLe
    (aggregateBy (fun r => (r.year, r.month, r.monthName)) act)

/-- The KPI dictionary built by `SalesETLPipeline.calculate_kpis`.
`average_order_value` is `Option Rat` because `Series.mean()` yields NaN
(`none`) on an empty active partition. -/
structure KPIs where
  total_revenue : Rat
  total_orders : Nat
  total_quantity : Int
  average_order_value : Option Rat
  cancelled_orders : Nat
  cancellation_rate : Rat
deriving DecidableEq

/-- `SalesETLPipeline.calculate_kpis` (lines 56-63).  On an empty full
table, `len(cancelled) / len(df)` is the integer division `0 / 0` and
Python raises `ZeroDivisionError`; the `Except.error` branch models that
exception. -/
def calculate_kpis (df df_active : List Row) : Except String KPIs :=
  if df.length = 0 then
    Except.error "ZeroDivisionError: division by zero"
  else
    Except.ok
      { total_revenue := pandasSum (df_active.map (fun r => r.amount))
        total_orders := df_active.length
        total_quantity := pyInt (pandasSum (df_active.map (fun r => r.qty)))
        average_order_value := pandasMean (df_active.map (fun r => r.amount))
        cancelled_orders := (df.filter (fun r => r.status = "Cancelled")).length
        cancellation_rate :=
          ((df.filter (fun r => r.status = "Cancelled")).length : Rat)
            / (df.length : Rat) * 100 }

/-- The dictionary built by `SalesETLPipeline.get_top_performers`. -/
structure TopPerformers where
  top_state : Option (AggRow String)
  top_5_states : List (AggRow String)
  top_category : Option (AggRow String)
  top_5_categories : List (AggRow String)
deriving DecidableEq

/-- `SalesETLPipeline.get_top_performers` (lines 127-141): recompute the
state and category aggregations and pick `xs[0] if xs else None` and the
slice `xs[:5]` of each. -/
def get_top_performers (act : List Row) : TopPerformers :=
  let state_data := aggregate_by_state act
  let category_data := aggregate_by_category act
  { top_state := state_data.head?
    top_5_states := state_data.take 5
    top_category := category_data.head?
    top_5_categories := category_data.take 5 }

/-- One output row of `get_regional_analytics` in `lambda_function.py`:
only `Amount` is summed and `Order ID` counted (no quantity column). -/
structure RegionalRow where
  shipState : String
  revenue : Rat
  order_count : Nat
deriving DecidableEq

/-- Revenue-descending comparison on regional rows. -/
def regRevDesc (a b : RegionalRow) : Prop :=
  b.revenue ≤ a.revenue

instance : DecidableRel regRevDesc :=
  fun a b => inferInstanceAs (Decidable (b.revenue ≤ a.revenue))

instance : IsTotal RegionalRow regRevDesc :=
  ⟨fun a b => le_total b.revenue a.revenue⟩

instance : IsTrans RegionalRow regRevDesc :=
  ⟨fun _ _ _ hab hbc => le_trans hbc hab⟩

/-- The grouping step of `get_regional_analytics`
(lambda_function.py, lines 122-125): group the active data by
`ship-state`, summing `Amount` and counting `Order ID`, with the
aggregates rounded to two decimals. -/
def regionalAgg (act : List Row) : List RegionalRow :=
  ((act.map (fun r => r.shipState)).dedup).map (fun k =>
    let grp := act.filter (fun r => r.shipState = k)
    { shipState := k
      revenue := round2 (pandasSum (grp.map (fun r => r.amount)))
      order_count := grp.length })

/-- `get_regional_analytics` (lambda_function.py, lines 120-130): the
grouped aggregation, sorted by revenue descending, truncated to the
first ten rows (`.head(10)`). -/
def get_regional_analytics (act : List Row) : List RegionalRow :=
  (List.insertionSort regRevDesc (regionalAgg act)).take 10

/-- The `metadata` object attached by `SalesETLPipeline.load_to_s3`. -/
structure Metadata where
  last_updated : String
  total_records_processed : Nat
  active_orders_processed : Nat
  pipeline_version : String
deriving DecidableEq

/-- The `aggregated_data` dictionary before metadata is attached. -/
structure ReportData where
  kpis : KPIs
  by_state : List (AggRow String)
  by_category : List (AggRow String)
  by_month : List (AggRow MonthKey)
  by_size : List (AggRow String)
  top_performers : TopPerformers
deriving DecidableEq

/-- The full Report Document: `aggregated_data` after `load_to_s3` has
attached the `metadata` entry. -/
structure Report where
  data : ReportData
  metadata : Metadata
deriving DecidableEq

/-- State of a `SalesETLPipeline` object.  `df = none` models the
freshly-constructed instance (`self.df = None`); `df_active = none`
models the attribute `self.df_active` not existing yet. -/
structure SalesETLPipeline where
  s3_bucket_name : String
  df : Option (List Row)
  df_active : Option (List Row)
deriving DecidableEq

/-- `SalesETLPipeline.__init__`. -/
def SalesETLPipeline.init (bucket : String) : SalesETLPipeline :=
  { s3_bucket_name := bucket, df := none, df_active := none }

/-- `SalesETLPipeline.extract`: store the parsed rows in `self.df`. -/
def SalesETLPipeline.extract (p : SalesETLPipeline) (rows : List Row) :
    SalesETLPipeline × List Row :=
  ({ p with df := some rows }, rows)

/-- `SalesETLPipeline.transform` (lines 23-47).  If `extract` has not
run (`self.df is None`) a `ValueError` is raised before any mutation, so
the state component is returned unchanged.  Otherwise the in-place
column coercions are identities in this model (see `Row`) and the active
partition is computed and stored. -/
def SalesETLPipeline.transform (p : SalesETLPipeline) :
    SalesETLPipeline × Except String (List Row) :=
  match p.df with
  | none => (p, Except.error "No data to transform. Please run extract() first.")
  | some df =>
      let act := etl_df_active df
      ({ p with df_active := some act }, Except.ok act)

/-- Method-level `calculate_kpis` (lines 49-65): a `ValueError` when
`extract` has not run; an `AttributeError` when `transform` has not run
(the object has no `df_active` attribute); otherwise the KPI dictionary.
The object is never mutated. -/
def SalesETLPipeline.calculate_kpisM (p : SalesETLPipeline) :
    SalesETLPipeline × Except String KPIs :=
  match p.df with
  | none => (p, Except.error "No data to calculate KPIs. Please run extract() first.")
  | some df =>
      match p.df_active with
      | none => (p, Except.error "AttributeError: no attribute df_active")
      | some act => (p, calculate_kpis df act)

/-- `SalesETLPipeline.load_to_s3` (lines 143-173): a `ValueError` when
`extract` has not run; otherwise attach the metadata dictionary to the
aggregated data.  The S3 upload itself is external I/O whose failure is
caught and reported inside the method, so it does not affect the
document. -/
def SalesETLPipeline.load_to_s3 (p : SalesETLPipeline) (data : ReportData)
    (now : String) : SalesETLPipeline × Except String Report :=
  match p.df with
  | none => (p, Except.error "No data available. Please run extract() first.")
  | some df =>
      match p.df_active with
      | none => (p, Except.error "AttributeError: no attribute df_active")
      | some act =>
          (p, Except.ok
            { data := data
              metadata :=
                { last_updated := now
                  total_records_processed := df.length
                  active_orders_processed := act.length
                  pipeline_version := "1.0" } })

/-- `SalesETLPipeline.run_pipeline` (lines 175-225): extract, transform,
compute all aggregations, attach metadata via `load_to_s3`, and finally
print a summary that subscripts `top_performers[top_state][state]` —
a `TypeError` when a top performer is `None` (empty active partition).
`now` is the wall-clock value of `datetime.now().isoformat()`. -/
def SalesETLPipeline.run_pipeline (p : SalesETLPipeline) (rows : List Row)
    (now : String) : Except String Report :=
  let p1 := (p.extract rows).1
  let p2 := (p1.transform).1
  let act := etl_df_active rows
  match calculate_kpis rows act with
  | Except.error e => Except.error e
  | Except.ok kpis =>
      let data : ReportData :=
        { kpis := kpis
          by_state := aggregate_by_state act
          by_category := aggregate_by_category act
          by_month := aggregate_by_month act
          by_size := aggregate_by_size act
          top_performers := get_top_performers act }
      match (p2.load_to_s3 data now).2 with
      | Except.error e => Except.error e
      | Except.ok report =>
          match (get_top_performers act).top_state,
                (get_top_performers act).top_category with
          | some _, some _ => Except.ok report
          | _, _ => Except.error "TypeError: NoneType is not subscriptable"

/-- Erase the only timestamp-dependent field of a pipeline outcome, for
stating run-to-run determinism. -/
def stripTime (e : Except String Report) : Except String Report :=
  e.map (fun rep => { rep with metadata := { rep.metadata with last_updated := "" } })

/-! ## Concrete sample data

Small datasets used to instantiate the universally quantified theorems
and to exhibit counterexamples. -/

/-- Build a row compactly; the fields not under test get fixed values. -/
def mkRow (oid state status : String) (amt qty : Option Rat) : Row :=
  { orderId := oid, date := "2022-04-26", status := status, amount := amt, qty := qty,
    shipState := state, category := "Set", size := "M", year := 2022, month := 4,
    monthName := "April" }

/-- One shipped order of 100 to state CA. -/
def wRow : Row := mkRow "405-1" "CA" "Shipped" (some 100) (some 1)

/-- A one-row dataset. -/
def wData : List Row := [wRow]

/-- The KPI dictionary `calculate_kpis` produces on `wData`. -/
def kpiW : KPIs :=
  { total_revenue := 100, total_orders := 1, total_quantity := 1,
    average_order_value := some 100, cancelled_orders := 0, cancellation_rate := 0 }

/-- A row whose `Amount` cell failed numeric coercion (NaN) and which is
not cancelled, so it stays in the active partition. -/
def badRow : Row := mkRow "405-2" "CA" "Shipped" none (some 1)

/-- Eleven active orders to eleven distinct states, with strictly
decreasing revenue, so that state S11 has the lowest revenue. -/
def c6Rows : List Row :=
  [ mkRow "A01" "S01" "Shipped" (some 11) (some 1)
  , mkRow "A02" "S02" "Shipped" (some 10) (some 1)
  , mkRow "A03" "S03" "Shipped" (some 9) (some 1)
  , mkRow "A04" "S04" "Shipped" (some 8) (some 1)
  , mkRow "A05" "S05" "Shipped" (some 7) (some 1)
  , mkRow "A06" "S06" "Shipped" (some 6) (some 1)
  , mkRow "A07" "S07" "Shipped" (some 5) (some 1)
  , mkRow "A08" "S08" "Shipped" (some 4) (some 1)
  , mkRow "A09" "S09" "Shipped" (some 3) (some 1)
  , mkRow "A10" "S10" "Shipped" (some 2) (some 1)
  , mkRow "A11" "S11" "Shipped" (some 1) (some 1) ]

/-- An empty aggregated-data document, for exercising `load_to_s3`. -/
def dataW : ReportData :=
  { kpis := kpiW, by_state := [], by_category := [], by_month := [], by_size := []
    top_performers := { top_state := none, top_5_states := [], top_category := none,
                        top_5_categories := [] } }

/-! ## Helper lemmas -/

theorem pandasSum_eq_sum_getD (l : List (Option Rat)) :
    pandasSum l = (l.map (fun o => o.getD 0)).sum := by
  induction l with
  | nil => rfl
  | cons o l ih =>
    cases o with
    | none => simpa [pandasSum, List.filterMap_cons] using ih
    | some q =>
      simp only [pandasSum] at ih ⊢
      rw [show List.filterMap id (some q :: l) = q :: List.filterMap id l from rfl]
      simp [ih]

theorem sum_map_one {α : Type} : ∀ l : List α, (l.map (fun _ => (1 : ℕ))).sum = l.length := by
  intro l
  induction l with
  | nil => rfl
  | cons a l ih => simp [ih, Nat.add_comm]

theorem sum_map_ite_mem {κ M : Type} [DecidableEq κ] [AddCommMonoid M]
    (c : κ) (x : M) (g : κ → M) :
    ∀ ks : List κ, ks.Nodup → c ∈ ks →
      (ks.map (fun k => if c = k then x + g k else g k)).sum = x + (ks.map g).sum := by
  intro ks
  induction ks with
  | nil => intro _ hc; exact absurd hc (List.not_mem_nil c)
  | cons k ks ih =>
    intro hnd hc
    rcases List.nodup_cons.mp hnd with ⟨hk, hnd'⟩
    by_cases h : c = k
    · subst h
      have hout : ∀ k' ∈ ks, (if c = k' then x + g k' else g k') = g k' := by
        intro k' hk'
        rw [if_neg]
        intro he
        exact hk (he ▸ hk')
      simp only [List.map_cons, List.sum_cons]
      rw [List.map_congr_left hout]
      simp [add_assoc]
    · have hc' : c ∈ ks := by
        rcases List.mem_cons.mp hc with h' | h'
        · exact absurd h' h
        · exact h'
      simp only [List.map_cons, List.sum_cons, if_neg h]
      rw [ih hnd' hc', add_left_comm]

theorem sum_fiberwise {α κ M : Type} [DecidableEq κ] [AddCommMonoid M]
    (f : α → M) (key : α → κ) :
    ∀ (l : List α) (ks : List κ), ks.Nodup → (∀ a ∈ l, key a ∈ ks) →
      (ks.map (fun k => ((l.filter (fun a => key a = k)).map f).sum)).sum
        = (l.map f).sum := by
  intro l
  induction l with
  | nil =>
    intro ks _ _
    simp
  | cons a l ih =>
    intro ks hnd hcov
    have hmem : key a ∈ ks := hcov a (List.mem_cons_self a l)
    have hcov' : ∀ b ∈ l, key b ∈ ks := fun b hb => hcov b (List.mem_cons_of_mem a hb)
    have hstep : ∀ k ∈ ks,
        (((a :: l).filter (fun b => key b = k)).map f).sum
          = (if key a = k then f a + ((l.filter (fun b => key b = k)).map f).sum
             else ((l.filter (fun b => key b = k)).map f).sum) := by
      intro k _
      by_cases h : key a = k
      · simp [List.filter_cons, h]
      · simp [List.filter_cons, h]
    rw [List.map_congr_left hstep, sum_map_ite_mem (key a) (f a) _ ks hnd hmem,
      ih ks hnd hcov']
    simp

theorem length_fiberwise {α κ : Type} [DecidableEq κ] (key : α → κ)
    (l : List α) (ks : List κ) (hnd : ks.Nodup) (hcov : ∀ a ∈ l, key a ∈ ks) :
    (ks.map (fun k => (l.filter (fun a => key a = k)).length)).sum = l.length := by
  have h := sum_fiberwise (fun _ => (1 : ℕ)) key l ks hnd hcov
  calc (ks.map fun k => (l.filter (fun a => key a = k)).length).sum
      = (ks.map fun k => ((l.filter (fun a => key a = k)).map (fun _ => (1 : ℕ))).sum).sum := by
        exact congrArg List.sum (List.map_congr_left (fun k _ => (sum_map_one _).symm))
    _ = (l.map fun _ => (1 : ℕ)).sum := h
    _ = l.length := sum_map_one l

theorem dedup_nodup_cov {α κ : Type} [DecidableEq κ] (key : α → κ) (rows : List α) :
    ((rows.map key).dedup).Nodup ∧ ∀ a ∈ rows, key a ∈ (rows.map key).dedup :=
  ⟨List.nodup_dedup _, fun _ ha => List.mem_dedup.mpr (List.mem_map_of_mem key ha)⟩

theorem aggregateBy_map_key {κ : Type} [DecidableEq κ] (key : Row → κ) (rows : List Row) :
    (aggregateBy key rows).map AggRow.key = (rows.map key).dedup := by
  unfold aggregateBy
  rw [List.map_map]
  exact List.map_id _

theorem sum_order_count_aggregateBy {κ : Type} [DecidableEq κ] (key : Row → κ)
    (rows : List Row) :
    ((aggregateBy key rows).map AggRow.order_count).sum = rows.length := by
  unfold aggregateBy
  rw [List.map_map]
  exact length_fiberwise key rows _ (dedup_nodup_cov key rows).1 (dedup_nodup_cov key rows).2

theorem sum_revenue_aggregateBy {κ : Type} [DecidableEq κ] (key : Row → κ)
    (rows : List Row) :
    ((aggregateBy key rows).map AggRow.revenue).sum
      = pandasSum (rows.map (fun r => r.amount)) := by
  have hfib := sum_fiberwise (fun r => (Row.amount r).getD 0) key rows
    ((rows.map key).dedup) (dedup_nodup_cov key rows).1 (dedup_nodup_cov key rows).2
  calc ((aggregateBy key rows).map AggRow.revenue).sum
      = (((rows.map key).dedup).map
          (fun k => ((rows.filter (fun r => key r = k)).map
            (fun r => (Row.amount r).getD 0)).sum)).sum := by
        unfold aggregateBy
        rw [List.map_map]
        refine congrArg List.sum (List.map_congr_left ?_)
        intro k _
        show pandasSum ((rows.filter (fun r => key r = k)).map (fun r => r.amount)) = _
        rw [pandasSum_eq_sum_getD, List.map_map]
        rfl
    _ = (rows.map (fun r => (Row.amount r).getD 0)).sum := hfib
    _ = pandasSum (rows.map (fun r => r.amount)) := by
        rw [pandasSum_eq_sum_getD, List.map_map]
        rfl

theorem sum_map_insertionSort {α M : Type} [AddCommMonoid M] (r : α → α → Prop)
    [DecidableRel r] (f : α → M) (l : List α) :
    ((List.insertionSort r l).map f).sum = (l.map f).sum :=
  List.Perm.sum_eq ((List.perm_insertionSort r l).map f)

theorem sum_order_count_sorted {κ : Type} [DecidableEq κ]
    (r : AggRow κ → AggRow κ → Prop) [DecidableRel r] (key : Row → κ) (rows : List Row) :
    ((List.insertionSort r (aggregateBy key rows)).map AggRow.order_count).sum
      = rows.length := by
  rw [sum_map_insertionSort]
  exact sum_order_count_aggregateBy key rows

theorem sum_revenue_sorted {κ : Type} [DecidableEq κ]
    (r : AggRow κ → AggRow κ → Prop) [DecidableRel r] (key : Row → κ) (rows : List Row) :
    ((List.insertionSort r (aggregateBy key rows)).map AggRow.revenue).sum
      = pandasSum (rows.map (fun a => a.amount)) := by
  rw [sum_map_insertionSort]
  exact sum_revenue_aggregateBy key rows

theorem mem_keys_aggregate_sorted {κ : Type} [DecidableEq κ]
    (r : AggRow κ → AggRow κ → Prop) [DecidableRel r] (key : Row → κ) (rows : List Row)
    (k : κ) :
    k ∈ (List.insertionSort r (aggregateBy key rows)).map AggRow.key
      ↔ ∃ a ∈ rows, key a = k := by
  rw [((List.perm_insertionSort r (aggregateBy key rows)).map AggRow.key).mem_iff,
    aggregateBy_map_key, List.mem_dedup, List.mem_map]

theorem regionalAgg_map_key (act : List Row) :
    (regionalAgg act).map RegionalRow.shipState = (act.map (fun r => r.shipState)).dedup := by
  unfold regionalAgg
  rw [List.map_map]
  exact List.map_id _

theorem mem_regional_keys_sub (act : List Row) (k : String)
    (h : k ∈ (get_regional_analytics act).map RegionalRow.shipState) :
    ∃ r ∈ act, r.shipState = k := by
  unfold get_regional_analytics at h
  have h1 : k ∈ (List.insertionSort regRevDesc (regionalAgg act)).map RegionalRow.shipState := by
    obtain ⟨x, hx, hxk⟩ := List.mem_map.mp h
    exact List.mem_map.mpr ⟨x, List.mem_of_mem_take hx, hxk⟩
  rw [((List.perm_insertionSort regRevDesc (regionalAgg act)).map RegionalRow.shipState).mem_iff,
    regionalAgg_map_key, List.mem_dedup, List.mem_map] at h1
  exact h1

/-! ## The claims -/

/-- C1: the specification requires the KPI computation on an empty full
partition to report the cancellation rate and average order value as an
explicit no-data condition rather than crash; the code instead computes
`len(cancelled) / len(df)` which raises `ZeroDivisionError` on the empty
dataset, both in `calculate_kpis` directly and through `run_pipeline`.
This theorem evaluates the embedded code at the failing input. -/
theorem claim_C1_empty_dataset_raises_zero_division :
    calculate_kpis [] [] = Except.error "ZeroDivisionError: division by zero"
  ∧ (SalesETLPipeline.init "bucket").run_pipeline [] "2022-04-26T00:00:00"
      = Except.error "ZeroDivisionError: division by zero" :=
  ⟨rfl, rfl⟩

/-- C2: for every input dataset and for each grouping dimension
(ship-state, category, size, and the compound year/month/month-name),
the sum of the `order_count` fields over the Aggregation Rows of that
dimension equals the number of records in the active partition. -/
theorem claim_C2_order_count_partition_preserving (df : List Row) :
    ((aggregate_by_state (etl_df_active df)).map AggRow.order_count).sum
        = (etl_df_active df).length
  ∧ ((aggregate_by_category (etl_df_active df)).map AggRow.order_count).sum
        = (etl_df_active df).length
  ∧ ((aggregate_by_size (etl_df_active df)).map AggRow.order_count).sum
        = (etl_df_active df).length
  ∧ ((aggregate_by_month (etl_df_active df)).map AggRow.order_count).sum
        = (etl_df_active df).length :=
  ⟨sum_order_count_sorted revDesc (fun r => r.shipState) (etl_df_active df),
   sum_order_count_sorted revDesc (fun r => r.category) (etl_df_active df),
   sum_order_count_sorted revDesc (fun r => r.size) (etl_df_active df),
   sum_order_count_sorted monthLe (fun r => (r.year, r.month, r.monthName)) (etl_df_active df)⟩

/-- C3: for every input dataset, whenever `calculate_kpis` returns a KPI
set, its `total_revenue` equals the sum of the `revenue` fields across
the `by_state` aggregation output. -/
theorem claim_C3_total_revenue_matches_by_state (df : List Row) (k : KPIs)
    (h : calculate_kpis df (etl_df_active df) = Except.ok k) :
    k.total_revenue
      = ((aggregate_by_state (etl_df_active df)).map AggRow.revenue).sum := by
  unfold calculate_kpis at h
  split at h
  · exact absurd h (by simp)
  · injection h with h2
    subst h2
    exact (sum_revenue_sorted revDesc (fun r => r.shipState) (etl_df_active df)).symm

/-- C4: a record passes the active-order filter exactly when its status
field is not the exact, case-sensitively compared string `Cancelled`;
any other status, including unknown or empty strings, keeps the record
active.  `activeFilter` is the predicate used by both
`etl_pipeline.transform` and `lambda_handler`. -/
theorem claim_C4_active_iff_status_not_cancelled (df : List Row) (r : Row) :
    r ∈ activeFilter df ↔ (r ∈ df ∧ r.status ≠ "Cancelled") := by
  simp [activeFilter]

/-- C5 counterexample: in the Lambda path the claim fails.  `badRow` has
an `Amount` that failed numeric coercion (NaN); it is not cancelled, so
it reaches `df_active` — the data consumed by the Lambda KPI and
aggregation functions — still carrying a null amount, because
`lambda_function.py` never applies `fillna`. -/
theorem claim_C5_counterexample :
    badRow ∈ lambda_df_active [badRow] ∧ badRow.amount = none :=
  ⟨by decide, rfl⟩

/-- C5 amended: in the ETL pipeline (`etl_pipeline.transform`) the
invariant does hold: every record of the active partition has non-null
amount and quantity, failed coercions having been resolved to zero by
`fillna(0)`.  In the Lambda path unparseable amounts remain NaN. -/
theorem claim_C5_amended_etl_active_never_null (df : List Row) (r : Row)
    (h : r ∈ etl_df_active df) : r.amount ≠ none ∧ r.qty ≠ none := by
  unfold etl_df_active at h
  rcases List.mem_map.mp h with ⟨r0, _, rfl⟩
  exact ⟨by simp [fillna0], by simp [fillna0]⟩

/-- C6 amended: for the four full aggregations of the ETL pipeline, the
set of group keys is exactly the set of distinct values present in the
active partition; the Lambda regional analytics invents no key either,
but only retains the ten highest-revenue states, dropping the rest. -/
theorem claim_C6_amended_group_keys (df : List Row) :
    (∀ k : String, k ∈ (aggregate_by_state (etl_df_active df)).map AggRow.key
        ↔ ∃ r ∈ etl_df_active df, r.shipState = k)
  ∧ (∀ k : String, k ∈ (aggregate_by_category (etl_df_active df)).map AggRow.key
        ↔ ∃ r ∈ etl_df_active df, r.category = k)
  ∧ (∀ k : String, k ∈ (aggregate_by_size (etl_df_active df)).map AggRow.key
        ↔ ∃ r ∈ etl_df_active df, r.size = k)
  ∧ (∀ k : MonthKey, k ∈ (aggregate_by_month (etl_df_active df)).map AggRow.key
        ↔ ∃ r ∈ etl_df_active df, (r.year, r.month, r.monthName) = k)
  ∧ (∀ k : String, k ∈ (get_regional_analytics (lambda_df_active df)).map RegionalRow.shipState
        → ∃ r ∈ lambda_df_active df, r.shipState = k) :=
  ⟨fun k => mem_keys_aggregate_sorted revDesc (fun r => r.shipState) (etl_df_active df) k,
   fun k => mem_keys_aggregate_sorted revDesc (fun r => r.category) (etl_df_active df) k,
   fun k => mem_keys_aggregate_sorted revDesc (fun r => r.size) (etl_df_active df) k,
   fun k => mem_keys_aggregate_sorted monthLe
     (fun r => (r.year, r.month, r.monthName)) (etl_df_active df) k,
   fun k h => mem_regional_keys_sub (lambda_df_active df) k h⟩

/-- C7: for every input dataset the monthly aggregation is sorted
ascending by (year, month) regardless of revenue, while the state,
category and size aggregations are each sorted descending by summed
revenue. -/
theorem claim_C7_aggregation_sort_orders (df : List Row) :
    List.Sorted monthLe (aggregate_by_month (etl_df_active df))
  ∧ List.Sorted revDesc (aggregate_by_state (etl_df_active df))
  ∧ List.Sorted revDesc (aggregate_by_category (etl_df_active df))
  ∧ List.Sorted revDesc (aggregate_by_size (etl_df_active df)) :=
  ⟨List.sorted_insertionSort monthLe _, List.sorted_insertionSort revDesc _,
   List.sorted_insertionSort revDesc _, List.sorted_insertionSort revDesc _⟩

/-- C8: top-N selection is a prefix take over the already-sorted
aggregation output: `top_state`/`top_category` are `head?` of the
`by_state`/`by_category` collections (`none` as the explicit empty
marker), and the top-5 lists are the first five (or fewer) elements in
the same order. -/
theorem claim_C8_top_n_is_prefix_take (df : List Row) :
    (get_top_performers (etl_df_active df)).top_state
        = (aggregate_by_state (etl_df_active df)).head?
  ∧ (get_top_performers (etl_df_active df)).top_5_states
        = (aggregate_by_state (etl_df_active df)).take 5
  ∧ (get_top_performers (etl_df_active df)).top_category
        = (aggregate_by_category (etl_df_active df)).head?
  ∧ (get_top_performers (etl_df_active df)).top_5_categories
        = (aggregate_by_category (etl_df_active df)).take 5 :=
  ⟨rfl, rfl, rfl, rfl⟩

/-- C9: two runs of the full pipeline on the same input rows produce
identical outcomes — the same error, or Report Documents identical in
every field except the `last_updated` timestamp — regardless of the
wall-clock values and of the pipeline instances used. -/
theorem claim_C9_two_run_determinism (p1 p2 : SalesETLPipeline) (rows : List Row)
    (t1 t2 : String) :
    stripTime (p1.run_pipeline rows t1) = stripTime (p2.run_pipeline rows t2) := by
  unfold SalesETLPipeline.run_pipeline
  cases h : calculate_kpis rows (etl_df_active rows) with
  | error e =>
      simp [SalesETLPipeline.extract, SalesETLPipeline.transform,
        SalesETLPipeline.load_to_s3, stripTime, h]
  | ok kpis =>
      cases h1 : (get_top_performers (etl_df_active rows)).top_state with
      | none =>
          simp [SalesETLPipeline.extract, SalesETLPipeline.transform,
            SalesETLPipeline.load_to_s3, stripTime, h, h1]
      | some s =>
          cases h2 : (get_top_performers (etl_df_active rows)).top_category with
          | none =>
              simp [SalesETLPipeline.extract, SalesETLPipeline.transform,
                SalesETLPipeline.load_to_s3, stripTime, h, h1, h2]
          | some c =>
              simp only [SalesETLPipeline.extract, SalesETLPipeline.transform,
                SalesETLPipeline.load_to_s3, stripTime, h, h1, h2]
              rfl

/-- C10: on a pipeline instance whose `extract` has not run
(`self.df is None`), each of `transform`, `calculate_kpis` and
`load_to_s3` raises a `ValueError` and leaves the instance state
unchanged. -/
theorem claim_C10_methods_require_extract (p : SalesETLPipeline) (data : ReportData)
    (now : String) (h : p.df = none) :
    p.transform = (p, Except.error "No data to transform. Please run extract() first.")
  ∧ p.calculate_kpisM
      = (p, Except.error "No data to calculate KPIs. Please run extract() first.")
  ∧ p.load_to_s3 data now
      = (p, Except.error "No data available. Please run extract() first.") := by
  obtain ⟨b, pdf, pact⟩ := p
  cases h
  exact ⟨rfl, rfl, rfl⟩

/-- C10 witness: the guards fire on a freshly constructed pipeline. -/
theorem claim_C10_witness :
    (SalesETLPipeline.init "bucket").transform
        = (SalesETLPipeline.init "bucket",
           Except.error "No data to transform. Please run extract() first.")
  ∧ (SalesETLPipeline.init "bucket").calculate_kpisM
        = (SalesETLPipeline.init "bucket",
           Except.error "No data to calculate KPIs. Please run extract() first.")
  ∧ (SalesETLPipeline.init "bucket").load_to_s3 dataW "2022-04-26T00:00:00"
        = (SalesETLPipeline.init "bucket",
           Except.error "No data available. Please run extract() first.") :=
  claim_C10_methods_require_extract (SalesETLPipeline.init "bucket") dataW
    "2022-04-26T00:00:00" rfl

section ConcreteEvaluation

attribute [local semireducible] Rat.add Rat.mul Rat.sub Rat.inv

/-- C3 witness: on the one-row dataset `wData`, `calculate_kpis`
returns `kpiW`, whose total revenue matches the by-state revenue sum. -/
theorem claim_C3_witness :
    kpiW.total_revenue
      = ((aggregate_by_state (etl_df_active wData)).map AggRow.revenue).sum :=
  claim_C3_total_revenue_matches_by_state wData kpiW (by rfl)

/-- C6 counterexample: with eleven distinct states in the active
partition, the regional analytics output of `lambda_function.py` (cited
by the claim) keeps only the ten highest-revenue states: state S11 is
present in the active partition but absent from the output keys, so a
dimension value is dropped. -/
theorem claim_C6_counterexample :
    "S11" ∈ (lambda_df_active c6Rows).map (fun r => r.shipState)
  ∧ "S11" ∉ (get_regional_analytics (lambda_df_active c6Rows)).map RegionalRow.shipState := by
  constructor
  · decide
  · decide

/-- C5 amended, witness: the filled version of `wRow` is in the ETL
active partition of `wData` and its fields are non-null. -/
theorem claim_C5_amended_witness :
    (fillna0 wRow).amount ≠ none ∧ (fillna0 wRow).qty ≠ none :=
  claim_C5_amended_etl_active_never_null wData (fillna0 wRow) (by decide)

/-- C6 amended, witness: the state CA of the single active row of
`wData` appears among the by-state aggregation keys. -/
theorem claim_C6_amended_witness :
    "CA" ∈ (aggregate_by_state (etl_df_active wData)).map AggRow.key :=
  ((claim_C6_amended_group_keys wData).1 "CA").mpr ⟨fillna0 wRow, by decide, rfl⟩

end ConcreteEvaluation
